import Mathlib

/-!
A verification development for the pipeline-parallel job scheduler of
pipegoose, centred on the job-creation module
(pipegoose/nn/pipeline_parallel2/_job/creator.py).

Pure shallow embedding: the Activation Store, the pending Job Queue and
the pipeline context (module-level globals in the source) are threaded as
an explicit state record; Python assertion failures and dictionary
KeyError are embedded as an Except error monad; tensors are an opaque
payload type that the scheduler never inspects.

Definitions whose source module is not part of the scheduler core under
review (queue.py, forward.py, backward.py, job_type.py) are modelled from
the design document and carry a doc comment saying so; everything else is
translated directly from creator.py.
-/

namespace Pipegoose

/-- The scheduler never inspects tensor payloads, so an opaque value type
stands in for torch.Tensor. -/
abbrev Tensor := Int

/-- Modelled from the spec: job kinds carried in Metadata (section 3:
job_type is Forward or Backward); job_type.py is not part of the sources
under review. The dispatch contract (section 4.2) also contemplates an
unrecognized job kind at run time, which OTHER stands for. -/
inductive JobType where
  | FORWARD
  | BACKWARD
  | OTHER
deriving DecidableEq, Repr

/-- Modelled from the spec (section 3): the Metadata record attached to a
Package; _package.py is not part of the sources under review. -/
structure Metadata where
  job_type : JobType
  microbatch_idx : Nat
  partition_idx : Nat
  source_rank : Nat
  destination_rank : Nat
deriving DecidableEq, Repr

/-- Modelled from the spec (section 3): a Package is a payload plus
Metadata; _package.py is not part of the sources under review. -/
structure Package where
  data : Tensor
  metadata : Metadata
deriving DecidableEq, Repr

/-- Rank topology handle; only get_global_rank is consulted by the code
under review. -/
structure ParallelContext where
  global_rank : Nat
deriving DecidableEq, Repr

/-- Per-run coordination state; the code under review reads only its
parallel_context field. -/
structure PipelineContext where
  parallel_context : ParallelContext
deriving DecidableEq, Repr

/-- A Python callable, identified opaquely: the no-op closure that the
Bridge passes as the backward job function, or any externally supplied
function. -/
inductive Callable where
  | backward_function
  | user (id : Nat)
deriving DecidableEq, Repr

/-- The callback classes wired by the Job Creator, with the constructor
arguments they are built with in creator.py. SendBackwardPackageCallback
exists in the codebase (it appears, commented out, in the backward
creator) and is modelled from the spec as the backward-direction
transmit callback. -/
inductive Callback where
  | CreateForwardOutputPackageCallback (parallel_context : ParallelContext) (pipeline_context : PipelineContext)
  | ScheduleBackwardJobCallback (pipeline_context : PipelineContext)
  | SaveActivationIfTrainingCallback
  | SaveInputActivationsCallback
  | SendForwardPackageCallback (parallel_context : ParallelContext)
  | ConfirmCompleteATaskToProgressTracker (parallel_context : ParallelContext)
  | CreateBackwardOutputPackageCallback (parallel_context : ParallelContext) (pipeline_context : PipelineContext)
  | SendBackwardPackageCallback (parallel_context : ParallelContext)
deriving DecidableEq, Repr

/-- Modelled from the spec: which callbacks transmit a Package to another
rank (section 4.2 item (e) for the forward direction; the
SendBackwardPackageCallback for the backward direction). All other
callbacks only prepare, cache or record progress locally. -/
def Callback.transmitsPackage : Callback → Bool
  | Callback.SendForwardPackageCallback _ => true
  | Callback.SendBackwardPackageCallback _ => true
  | _ => false

/-- A forward job: function, package and the ordered callback list. -/
structure ForwardJob where
  function : Callable
  package : Package
  cbs : List Callback
deriving DecidableEq, Repr

/-- A backward job: function, package, the is_scheduled flag and the
ordered callback list. -/
structure BackwardJob where
  function : Callable
  package : Package
  is_scheduled : Bool
  cbs : List Callback
deriving DecidableEq, Repr

/-- The Union[ForwardJob, BackwardJob] return type of create_job. -/
inductive Job where
  | forward (j : ForwardJob)
  | backward (j : BackwardJob)
deriving DecidableEq, Repr

/-- A dynamically typed Python argument, as passed to create_job: the
isinstance assertions in create_job exist precisely because any object
may arrive in the package and pipeline_context positions. -/
inductive PyObject where
  | package (p : Package)
  | pipeline_context (c : PipelineContext)
  | tensor (t : Tensor)
  | pyNone
deriving DecidableEq, Repr

/-- The Python exceptions the embedded code can raise: a failed assert
statement, or a failed dictionary lookup. -/
inductive PyError where
  | AssertionError
  | KeyError
deriving DecidableEq, Repr

/-- Activation Store keys: (microbatch_idx, partition_idx). -/
abbrev ActKey := Nat × Nat

/-- Modelled from the spec (section 3): one sub-store of the Activation
Store, a keyed cache of tensors addressed by (microbatch, partition)
pairs; queue.py is not part of the sources under review. -/
abbrev Store := List (ActKey × Tensor)

/-- Key membership in a sub-store. -/
def Store.is_saved (key : ActKey) (store : Store) : Bool :=
  store.any (fun entry => decide (entry.1 = key))

/-- Modelled from the spec: SavedActivation.is_saved from queue.py, the
membership test on the output-activation sub-store. -/
def SavedActivation.is_saved (microbatch_idx partition_idx : Nat) (store : Store) : Bool :=
  Store.is_saved (microbatch_idx, partition_idx) store

/-- Modelled from the spec: InputActivations.is_saved from queue.py, the
membership test on the input-activation sub-store. -/
def InputActivations.is_saved (microbatch_idx partition_idx : Nat) (store : Store) : Bool :=
  Store.is_saved (microbatch_idx, partition_idx) store

/-- Modelled from the spec (section 4.2 item (c)): the after_compute hook
of SaveActivationIfTrainingCallback caches the output activation iff the
run is in training mode; forward.py is not part of the sources under
review. -/
def SaveActivationIfTrainingCallback.after_compute (is_training : Bool) (key : ActKey)
    (value : Tensor) (store : Store) : Store :=
  if is_training then (key, value) :: store else store

/-- Modelled from the spec (section 4.2 item (d)): the after_compute hook
of SaveInputActivationsCallback caches the input activation
unconditionally; forward.py is not part of the sources under review. -/
def SaveInputActivationsCallback.after_compute (key : ActKey) (value : Tensor)
    (store : Store) : Store :=
  (key, value) :: store

/-- _ForwardJobCreator.create from creator.py: assembles the forward
callback chain and builds the ForwardJob. -/
def _ForwardJobCreator.create (function : Callable) (package : Package)
    (parallel_context : ParallelContext) (pipeline_context : PipelineContext) : ForwardJob :=
  let callbacks : List Callback :=
    [Callback.CreateForwardOutputPackageCallback parallel_context pipeline_context,
     Callback.ScheduleBackwardJobCallback pipeline_context,
     Callback.SaveActivationIfTrainingCallback,
     Callback.SaveInputActivationsCallback,
     Callback.SendForwardPackageCallback parallel_context,
     Callback.ConfirmCompleteATaskToProgressTracker parallel_context]
  { function := function, package := package, cbs := callbacks }

/-- _BackwardJobCreator.create from creator.py: asserts that the saved
output activation and the saved input activation for the package triple
exist (in that order, each `is True`), then builds the BackwardJob with
is_scheduled set and the single CreateBackwardOutputPackageCallback (the
SendBackwardPackageCallback line is commented out in the source). -/
def _BackwardJobCreator.create (function : Callable) (package : Package)
    (parallel_context : ParallelContext) (pipeline_context : PipelineContext)
    (saved_store input_store : Store) : Except PyError BackwardJob :=
  let microbatch_idx := package.metadata.microbatch_idx
  let partition_idx := package.metadata.partition_idx
  if SavedActivation.is_saved microbatch_idx partition_idx saved_store = true then
    if InputActivations.is_saved microbatch_idx partition_idx input_store = true then
      Except.ok
        { function := function, package := package, is_scheduled := true,
          cbs := [Callback.CreateBackwardOutputPackageCallback parallel_context pipeline_context] }
    else Except.error PyError.AssertionError
  else Except.error PyError.AssertionError

/-- create_job from creator.py: asserts isinstance(package, Package) and
isinstance(pipeline_context, PipelineContext), then dispatches through
the JOB_TYPE_TO_CREATOR mapping, whose only keys are FORWARD and
BACKWARD (any other job_type raises KeyError). The two sub-stores are
the module-level Activation Store state read by the backward creator. -/
def create_job (function : Callable) (package : PyObject) (parallel_context : ParallelContext)
    (pipeline_context : PyObject) (saved_store input_store : Store) : Except PyError Job :=
  match package with
  | PyObject.package pkg =>
    match pipeline_context with
    | PyObject.pipeline_context ctx =>
      match pkg.metadata.job_type with
      | JobType.FORWARD =>
          Except.ok (Job.forward (_ForwardJobCreator.create function pkg parallel_context ctx))
      | JobType.BACKWARD =>
          (_BackwardJobCreator.create function pkg parallel_context ctx saved_store input_store).map
            Job.backward
      | JobType.OTHER => Except.error PyError.KeyError
    | _ => Except.error PyError.AssertionError
  | _ => Except.error PyError.AssertionError

/-- The module-level mutable state read and written by the Bridge: the
pipeline context returned by get_pipeline_context, the two Activation
Store sub-stores, and JobQueue.PENDING_JOBS. -/
structure GlobalState where
  pipeline_context : PipelineContext
  saved_activations : Store
  input_activations : Store
  pending_jobs : List Job
deriving DecidableEq, Repr

/-- _create_backward_job_and_put_to_pending_queue from creator.py: wraps
the gradient and the captured metadata into a Package, sets its job_type
to BACKWARD, builds the job through create_job with the no-op backward
function, and appends it to JobQueue.PENDING_JOBS. (The print calls in
the source are pure logging and are not modelled.) -/
def _create_backward_job_and_put_to_pending_queue (grad_input : Tensor) (metadata : Metadata)
    (st : GlobalState) : Except PyError GlobalState :=
  let package : Package :=
    { data := grad_input, metadata := { metadata with job_type := JobType.BACKWARD } }
  let pipeline_context := st.pipeline_context
  let parallel_context := pipeline_context.parallel_context
  match create_job Callable.backward_function (PyObject.package package) parallel_context
      (PyObject.pipeline_context pipeline_context) st.saved_activations st.input_activations with
  | Except.error e => Except.error e
  | Except.ok backward_job =>
      Except.ok { st with pending_jobs := st.pending_jobs ++ [backward_job] }

/-- The context object of the autograd bridge node, holding the metadata
captured on the forward pass (ctx.package_meta). -/
structure BridgeCtx where
  package_meta : Metadata
deriving DecidableEq, Repr

/-- The result of the bridge node on the forward pass: the context it
saved and the tensor it returned. -/
structure ForwardResult where
  ctx : BridgeCtx
  output : Tensor
deriving DecidableEq, Repr

/-- Function.forward from schedule_backward_job in creator.py: stores the
metadata on the context and returns the input tensor. -/
def Function.forward (metadata : Metadata) (input : Tensor) : ForwardResult :=
  { ctx := { package_meta := metadata }, output := input }

/-- Function.backward from schedule_backward_job in creator.py: reads the
captured metadata, creates and enqueues the backward job, and returns
(None, grad_input). -/
def Function.backward (ctx : BridgeCtx) (grad_input : Tensor) (st : GlobalState) :
    Except PyError ((Option Tensor × Tensor) × GlobalState) :=
  let metadata := ctx.package_meta
  match _create_backward_job_and_put_to_pending_queue grad_input metadata st with
  | Except.error e => Except.error e
  | Except.ok st2 => Except.ok ((none, grad_input), st2)

/-- schedule_backward_job from creator.py: applies the bridge node to the
package payload and writes the node output back into package.data. The
second component is the bridge node installed into the autograd graph
(whose captured context later drives Function.backward). -/
def schedule_backward_job (package : Package) (_pipeline_context : PipelineContext) :
    Package × BridgeCtx :=
  let data := package.data
  let r := Function.forward package.metadata data
  ({ package with data := r.output }, r.ctx)

/-- The backward job that the Bridge builds for a gradient and a captured
metadata record, spelled out: the value computed by
_create_backward_job_and_put_to_pending_queue on the success path (no-op
function, backward package, is_scheduled, single prepare callback). -/
def bridgeJob (grad_input : Tensor) (metadata : Metadata) (st : GlobalState) : BackwardJob :=
  { function := Callable.backward_function,
    package := { data := grad_input, metadata := { metadata with job_type := JobType.BACKWARD } },
    is_scheduled := true,
    cbs := [Callback.CreateBackwardOutputPackageCallback st.pipeline_context.parallel_context
              st.pipeline_context] }

/-- How many Backward Jobs for the triple
(microbatch_idx, partition_idx, BACKWARD) a job list holds. -/
def countBackwardFor (jobs : List Job) (microbatch_idx partition_idx : Nat) : Nat :=
  jobs.countP (fun j =>
    match j with
    | Job.backward bj =>
        decide (bj.package.metadata.microbatch_idx = microbatch_idx ∧
          bj.package.metadata.partition_idx = partition_idx ∧
          bj.package.metadata.job_type = JobType.BACKWARD)
    | Job.forward _ => false)

/-- Concrete pipeline context for the worked examples. -/
def c2_ctx : PipelineContext := { parallel_context := { global_rank := 0 } }

/-- Concrete forward-pass metadata (microbatch 0, partition 0) for the
worked examples. -/
def c2_metadata : Metadata :=
  { job_type := JobType.FORWARD, microbatch_idx := 0, partition_idx := 0,
    source_rank := 0, destination_rank := 1 }

/-- Concrete global state in which the pending Job Queue already holds a
Backward Job for the triple (0, 0, BACKWARD) and both Activation Store
entries for (0, 0) exist. -/
def c2_state : GlobalState :=
  { pipeline_context := c2_ctx,
    saved_activations := [((0, 0), 5)],
    input_activations := [((0, 0), 7)],
    pending_jobs := [Job.backward
      { function := Callable.backward_function,
        package := { data := 4, metadata := { c2_metadata with job_type := JobType.BACKWARD } },
        is_scheduled := true,
        cbs := [Callback.CreateBackwardOutputPackageCallback c2_ctx.parallel_context c2_ctx] }] }

/-- The global state after the bridge has fired once more on c2_state
with gradient 6. -/
def c4_st2 : GlobalState :=
  { c2_state with pending_jobs :=
      c2_state.pending_jobs ++ [Job.backward (bridgeJob 6 c2_metadata c2_state)] }

/-- Concrete rank topology for the backward-creator examples. -/
def c6_pc : ParallelContext := { global_rank := 1 }

/-- Concrete pipeline context for the backward-creator examples. -/
def c6_ctx : PipelineContext := { parallel_context := c6_pc }

/-- Concrete backward package for microbatch 0, partition 1. -/
def c6_package : Package :=
  { data := 3,
    metadata := { job_type := JobType.BACKWARD, microbatch_idx := 0, partition_idx := 1,
                  source_rank := 1, destination_rank := 0 } }

/-- The backward job that the backward creator builds from c6_package. -/
def c6_job : BackwardJob :=
  { function := Callable.user 0, package := c6_package, is_scheduled := true,
    cbs := [Callback.CreateBackwardOutputPackageCallback c6_pc c6_ctx] }

/-- Concrete backward package for the precondition examples (microbatch
3, partition 2, no activations saved). -/
def c1_pkg : Package :=
  { data := 8,
    metadata := { job_type := JobType.BACKWARD, microbatch_idx := 3, partition_idx := 2,
                  source_rank := 2, destination_rank := 1 } }

/-- Concrete package with an unrecognized job kind. -/
def c7_pkg : Package :=
  { data := 1,
    metadata := { job_type := JobType.OTHER, microbatch_idx := 0, partition_idx := 0,
                  source_rank := 0, destination_rank := 0 } }

/-- Dispatch equation of create_job on a well-typed forward package. -/
theorem create_job_forward_eq (function : Callable) (pkg : Package)
    (parallel_context : ParallelContext) (ctx : PipelineContext) (saved_store input_store : Store)
    (h : pkg.metadata.job_type = JobType.FORWARD) :
    create_job function (PyObject.package pkg) parallel_context (PyObject.pipeline_context ctx)
        saved_store input_store =
      Except.ok (Job.forward (_ForwardJobCreator.create function pkg parallel_context ctx)) := by
  simp [create_job, h]

/-- Dispatch equation of create_job on a well-typed backward package. -/
theorem create_job_backward_eq (function : Callable) (pkg : Package)
    (parallel_context : ParallelContext) (ctx : PipelineContext) (saved_store input_store : Store)
    (h : pkg.metadata.job_type = JobType.BACKWARD) :
    create_job function (PyObject.package pkg) parallel_context (PyObject.pipeline_context ctx)
        saved_store input_store =
      (_BackwardJobCreator.create function pkg parallel_context ctx saved_store input_store).map
        Job.backward := by
  simp [create_job, h]

/-- Dispatch equation of create_job on an unrecognized job kind. -/
theorem create_job_other_eq (function : Callable) (pkg : Package)
    (parallel_context : ParallelContext) (ctx : PipelineContext) (saved_store input_store : Store)
    (h : pkg.metadata.job_type = JobType.OTHER) :
    create_job function (PyObject.package pkg) parallel_context (PyObject.pipeline_context ctx)
        saved_store input_store = Except.error PyError.KeyError := by
  simp [create_job, h]

/-- When both activation entries exist, the backward creator succeeds and
its result is exactly the job with is_scheduled set and the single
prepare callback. -/
theorem backward_create_ok (function : Callable) (pkg : Package)
    (parallel_context : ParallelContext) (ctx : PipelineContext) (saved_store input_store : Store)
    (hs : SavedActivation.is_saved pkg.metadata.microbatch_idx pkg.metadata.partition_idx
        saved_store = true)
    (hi : InputActivations.is_saved pkg.metadata.microbatch_idx pkg.metadata.partition_idx
        input_store = true) :
    _BackwardJobCreator.create function pkg parallel_context ctx saved_store input_store =
      Except.ok
        { function := function, package := pkg, is_scheduled := true,
          cbs := [Callback.CreateBackwardOutputPackageCallback parallel_context ctx] } := by
  simp [_BackwardJobCreator.create, hs, hi]

/-- When either activation entry is missing, the backward creator fails
with an assertion error. -/
theorem backward_create_err (function : Callable) (pkg : Package)
    (parallel_context : ParallelContext) (ctx : PipelineContext) (saved_store input_store : Store)
    (h : ¬(SavedActivation.is_saved pkg.metadata.microbatch_idx pkg.metadata.partition_idx
          saved_store = true ∧
        InputActivations.is_saved pkg.metadata.microbatch_idx pkg.metadata.partition_idx
          input_store = true)) :
    _BackwardJobCreator.create function pkg parallel_context ctx saved_store input_store =
      Except.error PyError.AssertionError := by
  cases hsv : SavedActivation.is_saved pkg.metadata.microbatch_idx pkg.metadata.partition_idx
      saved_store with
  | false => simp [_BackwardJobCreator.create, hsv]
  | true =>
    cases hiv : InputActivations.is_saved pkg.metadata.microbatch_idx pkg.metadata.partition_idx
        input_store with
    | false => simp [_BackwardJobCreator.create, hsv, hiv]
    | true => exact absurd ⟨hsv, hiv⟩ h

/-- The Job Creator call made by the Bridge succeeds and returns the
bridge job when both activation entries exist. -/
theorem bridge_create_job_ok (grad_input : Tensor) (metadata : Metadata) (st : GlobalState)
    (hs : SavedActivation.is_saved metadata.microbatch_idx metadata.partition_idx
        st.saved_activations = true)
    (hi : InputActivations.is_saved metadata.microbatch_idx metadata.partition_idx
        st.input_activations = true) :
    create_job Callable.backward_function
        (PyObject.package
          { data := grad_input, metadata := { metadata with job_type := JobType.BACKWARD } })
        st.pipeline_context.parallel_context (PyObject.pipeline_context st.pipeline_context)
        st.saved_activations st.input_activations =
      Except.ok (Job.backward (bridgeJob grad_input metadata st)) := by
  rw [create_job_backward_eq _ _ _ _ _ _ rfl,
    backward_create_ok _ _ _ _ _ _ hs hi]
  rfl

/-- On the success path the Bridge appends exactly the bridge job to the
pending Job Queue and changes nothing else. -/
theorem bridge_enqueue_ok (grad_input : Tensor) (metadata : Metadata) (st : GlobalState)
    (hs : SavedActivation.is_saved metadata.microbatch_idx metadata.partition_idx
        st.saved_activations = true)
    (hi : InputActivations.is_saved metadata.microbatch_idx metadata.partition_idx
        st.input_activations = true) :
    _create_backward_job_and_put_to_pending_queue grad_input metadata st =
      Except.ok
        { st with pending_jobs := st.pending_jobs ++ [Job.backward (bridgeJob grad_input metadata st)] } := by
  unfold _create_backward_job_and_put_to_pending_queue
  simp only [bridge_create_job_ok grad_input metadata st hs hi]

/-- On the success path the bridge node backward returns (None, grad) and
the state with the bridge job appended. -/
theorem bridge_backward_ok (ctx : BridgeCtx) (grad_input : Tensor) (st : GlobalState)
    (hs : SavedActivation.is_saved ctx.package_meta.microbatch_idx ctx.package_meta.partition_idx
        st.saved_activations = true)
    (hi : InputActivations.is_saved ctx.package_meta.microbatch_idx ctx.package_meta.partition_idx
        st.input_activations = true) :
    Function.backward ctx grad_input st =
      Except.ok ((none, grad_input),
        { st with pending_jobs :=
            st.pending_jobs ++ [Job.backward (bridgeJob grad_input ctx.package_meta st)] }) := by
  unfold Function.backward
  simp only [bridge_enqueue_ok grad_input ctx.package_meta st hs hi]

/-- Claim C4: the Bridge node is an identity pass-through in both
directions. Its forward pass returns the input tensor unchanged while
capturing the metadata on the context, and whenever its backward pass
returns, the returned pair is exactly (None, grad_input): the incoming
gradient unchanged, paired with None for the metadata argument. -/
theorem claim_C4_bridge_identity :
    (∀ (metadata : Metadata) (input : Tensor),
      (Function.forward metadata input).output = input ∧
      (Function.forward metadata input).ctx.package_meta = metadata) ∧
    (∀ (ctx : BridgeCtx) (grad_input : Tensor) (st : GlobalState)
        (ret : Option Tensor × Tensor) (st2 : GlobalState),
      Function.backward ctx grad_input st = Except.ok (ret, st2) →
        ret = (none, grad_input)) := by
  constructor
  · intro metadata input
    exact ⟨rfl, rfl⟩
  · intro ctx grad_input st ret st2 h
    unfold Function.backward at h
    cases hc : _create_backward_job_and_put_to_pending_queue grad_input ctx.package_meta st with
    | error e =>
      simp only [hc] at h
      exact Except.noConfusion h
    | ok st3 =>
      simp only [hc] at h
      injection h with h1
      exact (congrArg Prod.fst h1).symm

/-- Claim C4 witness: at a concrete state in which the backward pass of
the bridge succeeds, the forward pass returns its input and the backward
pass returns the gradient paired with None. -/
theorem claim_C4_witness :
    (Function.forward c2_metadata 5).output = 5 ∧
    ((none, (6 : Tensor)) : Option Tensor × Tensor) = (none, 6) := by
  refine ⟨(claim_C4_bridge_identity.1 c2_metadata 5).1, ?_⟩
  exact claim_C4_bridge_identity.2 ⟨c2_metadata⟩ 6 c2_state (none, 6) c4_st2 rfl

/-- Claim C5: for every Forward Package the Job Creator builds a
ForwardJob whose callback list is exactly, in order: prepare the
outgoing package, install the Backward-Scheduling Bridge, save the
output activation iff training, save the input activation
unconditionally, transmit the package, and confirm progress; and the
save-output callback stores into the Activation Store iff the run is in
training mode while the save-input callback stores unconditionally. -/
theorem claim_C5_forward_callback_chain (function : Callable) (package : Package)
    (parallel_context : ParallelContext) (pipeline_context : PipelineContext) :
    (_ForwardJobCreator.create function package parallel_context pipeline_context).cbs =
      [Callback.CreateForwardOutputPackageCallback parallel_context pipeline_context,
       Callback.ScheduleBackwardJobCallback pipeline_context,
       Callback.SaveActivationIfTrainingCallback,
       Callback.SaveInputActivationsCallback,
       Callback.SendForwardPackageCallback parallel_context,
       Callback.ConfirmCompleteATaskToProgressTracker parallel_context] ∧
    (∀ (is_training : Bool) (key : ActKey) (value : Tensor) (store : Store),
      Store.is_saved key
          (SaveActivationIfTrainingCallback.after_compute is_training key value store) =
        (is_training || Store.is_saved key store)) ∧
    (∀ (key : ActKey) (value : Tensor) (store : Store),
      Store.is_saved key (SaveInputActivationsCallback.after_compute key value store) = true) := by
  refine ⟨rfl, ?_, ?_⟩
  · intro is_training key value store
    cases is_training with
    | false => simp [SaveActivationIfTrainingCallback.after_compute]
    | true => simp [SaveActivationIfTrainingCallback.after_compute, Store.is_saved]
  · intro key value store
    simp [SaveInputActivationsCallback.after_compute, Store.is_saved]

/-- Claim C7: dispatch in create_job is a direct mapping from job_type
to creator. An unrecognized job kind fails with a KeyError before any
creator runs and no job is produced; FORWARD maps to the forward
creator and BACKWARD to the backward creator. -/
theorem claim_C7_dispatch (function : Callable) (pkg : Package)
    (parallel_context : ParallelContext) (ctx : PipelineContext) (saved_store input_store : Store) :
    (pkg.metadata.job_type = JobType.OTHER →
      create_job function (PyObject.package pkg) parallel_context (PyObject.pipeline_context ctx)
          saved_store input_store = Except.error PyError.KeyError) ∧
    (pkg.metadata.job_type = JobType.FORWARD →
      create_job function (PyObject.package pkg) parallel_context (PyObject.pipeline_context ctx)
          saved_store input_store =
        Except.ok (Job.forward (_ForwardJobCreator.create function pkg parallel_context ctx))) ∧
    (pkg.metadata.job_type = JobType.BACKWARD →
      create_job function (PyObject.package pkg) parallel_context (PyObject.pipeline_context ctx)
          saved_store input_store =
        (_BackwardJobCreator.create function pkg parallel_context ctx saved_store
            input_store).map Job.backward) := by
  exact ⟨create_job_other_eq function pkg parallel_context ctx saved_store input_store,
    create_job_forward_eq function pkg parallel_context ctx saved_store input_store,
    create_job_backward_eq function pkg parallel_context ctx saved_store input_store⟩

/-- Claim C7 witness: a concrete package whose job kind is unrecognized
makes create_job fail with a KeyError. -/
theorem claim_C7_witness :
    create_job (Callable.user 2) (PyObject.package c7_pkg) c6_pc
        (PyObject.pipeline_context c6_ctx) [] [] = Except.error PyError.KeyError :=
  (claim_C7_dispatch (Callable.user 2) c7_pkg c6_pc c6_ctx [] []).1 rfl

/-- Claim C8: every Backward Job constructed by the Backward Job Creator
carries is_scheduled = true. -/
theorem claim_C8_is_scheduled (function : Callable) (pkg : Package)
    (parallel_context : ParallelContext) (ctx : PipelineContext)
    (saved_store input_store : Store) (bj : BackwardJob)
    (h : _BackwardJobCreator.create function pkg parallel_context ctx saved_store input_store =
      Except.ok bj) :
    bj.is_scheduled = true := by
  simp only [_BackwardJobCreator.create] at h
  split_ifs at h
  cases h
  rfl

/-- Claim C8 witness: the concrete backward job built for microbatch 0,
partition 1 has its is_scheduled flag set. -/
theorem claim_C8_witness : c6_job.is_scheduled = true :=
  claim_C8_is_scheduled (Callable.user 0) c6_package c6_pc c6_ctx
    [((0, 1), 11)] [((0, 1), 13)] c6_job rfl

/-- Claim C9: when the package argument is not a Package instance, or
the pipeline_context argument is not a PipelineContext instance,
create_job fails with an assertion error before dispatching, so no job
is produced from ill-typed inputs. -/
theorem claim_C9_isinstance_asserts (function : Callable) (packageArg : PyObject)
    (parallel_context : ParallelContext) (contextArg : PyObject) (saved_store input_store : Store)
    (h : (∀ p : Package, packageArg ≠ PyObject.package p) ∨
         (∀ c : PipelineContext, contextArg ≠ PyObject.pipeline_context c)) :
    create_job function packageArg parallel_context contextArg saved_store input_store =
      Except.error PyError.AssertionError := by
  cases packageArg with
  | package p =>
    cases contextArg with
    | pipeline_context c =>
      rcases h with h | h
      · exact absurd rfl (h p)
      · exact absurd rfl (h c)
    | package q => rfl
    | tensor t => rfl
    | pyNone => rfl
  | pipeline_context c => rfl
  | tensor t => rfl
  | pyNone => rfl

/-- Claim C9 witness: passing None in the package position makes
create_job fail with an assertion error. -/
theorem claim_C9_witness :
    create_job (Callable.user 3) PyObject.pyNone c6_pc (PyObject.pipeline_context c6_ctx) [] [] =
      Except.error PyError.AssertionError :=
  claim_C9_isinstance_asserts (Callable.user 3) PyObject.pyNone c6_pc
    (PyObject.pipeline_context c6_ctx) [] []
    (Or.inl (fun _ hp => PyObject.noConfusion hp))

/-- Claim C1: for every Package whose metadata has job_type = BACKWARD,
create_job constructs a Backward Job exactly when both the saved output
activation and the saved input activation for
(microbatch_idx, partition_idx) exist in the Activation Store; when
either is absent, the call fails with an assertion error and no job is
constructed. -/
theorem claim_C1_backward_preconditions (function : Callable) (pkg : Package)
    (parallel_context : ParallelContext) (ctx : PipelineContext)
    (saved_store input_store : Store)
    (hjt : pkg.metadata.job_type = JobType.BACKWARD) :
    ((∃ bj : BackwardJob,
        create_job function (PyObject.package pkg) parallel_context
            (PyObject.pipeline_context ctx) saved_store input_store =
          Except.ok (Job.backward bj)) ↔
      (SavedActivation.is_saved pkg.metadata.microbatch_idx pkg.metadata.partition_idx
          saved_store = true ∧
       InputActivations.is_saved pkg.metadata.microbatch_idx pkg.metadata.partition_idx
          input_store = true)) ∧
    (¬(SavedActivation.is_saved pkg.metadata.microbatch_idx pkg.metadata.partition_idx
          saved_store = true ∧
       InputActivations.is_saved pkg.metadata.microbatch_idx pkg.metadata.partition_idx
          input_store = true) →
      create_job function (PyObject.package pkg) parallel_context
          (PyObject.pipeline_context ctx) saved_store input_store =
        Except.error PyError.AssertionError) := by
  have hd := create_job_backward_eq function pkg parallel_context ctx saved_store input_store hjt
  constructor
  · constructor
    · rintro ⟨bj, hbj⟩
      rw [hd] at hbj
      by_contra hnot
      rw [backward_create_err function pkg parallel_context ctx saved_store input_store hnot]
        at hbj
      exact Except.noConfusion hbj
    · rintro ⟨hs, hi⟩
      refine ⟨{ function := function, package := pkg, is_scheduled := true,
                cbs := [Callback.CreateBackwardOutputPackageCallback parallel_context ctx] }, ?_⟩
      rw [hd, backward_create_ok function pkg parallel_context ctx saved_store input_store hs hi]
      rfl
  · intro hnot
    rw [hd, backward_create_err function pkg parallel_context ctx saved_store input_store hnot]
    rfl

/-- Claim C1 witness: a concrete backward package for (3, 2) with both
Activation Store entries absent makes create_job fail with an assertion
error, and the same package with both entries present yields a Backward
Job. -/
theorem claim_C1_witness :
    create_job (Callable.user 1) (PyObject.package c1_pkg) c6_pc
        (PyObject.pipeline_context c6_ctx) [] [] = Except.error PyError.AssertionError ∧
    (∃ bj : BackwardJob,
      create_job (Callable.user 1) (PyObject.package c1_pkg) c6_pc
          (PyObject.pipeline_context c6_ctx) [((3, 2), 1)] [((3, 2), 2)] =
        Except.ok (Job.backward bj)) := by
  constructor
  · exact (claim_C1_backward_preconditions (Callable.user 1) c1_pkg c6_pc c6_ctx [] [] rfl).2
      (by decide)
  · exact (claim_C1_backward_preconditions (Callable.user 1) c1_pkg c6_pc c6_ctx
      [((3, 2), 1)] [((3, 2), 2)] rfl).1.mpr (by decide)

/-- Claim C2 counterexample: the pending Job Queue of c2_state already
holds a Backward Job for the triple (0, 0, BACKWARD), yet when a
gradient for the same pair arrives the Bridge does not skip: it
enqueues a second Backward Job for that same triple, so the queue ends
up holding two of them. -/
theorem claim_C2_counterexample :
    countBackwardFor c2_state.pending_jobs 0 0 = 1 ∧
    _create_backward_job_and_put_to_pending_queue 9 c2_metadata c2_state =
      Except.ok
        { c2_state with pending_jobs :=
            c2_state.pending_jobs ++ [Job.backward (bridgeJob 9 c2_metadata c2_state)] } ∧
    countBackwardFor
        (c2_state.pending_jobs ++ [Job.backward (bridgeJob 9 c2_metadata c2_state)]) 0 0 = 2 :=
  ⟨by decide, rfl, by decide⟩

/-- Claim C2 as amended: the Bridge performs no duplicate check at all.
On every gradient arrival whose activation entries exist it appends
exactly one new Backward Job to the pending Job Queue, regardless of
whether the triple is already represented there; at most one enqueue
per (microbatch, partition) pair therefore holds only when the external
engine delivers at most one gradient per boundary. -/
theorem claim_C2_amended_always_enqueues (grad_input : Tensor) (metadata : Metadata)
    (st : GlobalState)
    (hs : SavedActivation.is_saved metadata.microbatch_idx metadata.partition_idx
        st.saved_activations = true)
    (hi : InputActivations.is_saved metadata.microbatch_idx metadata.partition_idx
        st.input_activations = true) :
    _create_backward_job_and_put_to_pending_queue grad_input metadata st =
      Except.ok
        { st with pending_jobs :=
            st.pending_jobs ++ [Job.backward (bridgeJob grad_input metadata st)] } :=
  bridge_enqueue_ok grad_input metadata st hs hi

/-- Claim C2 witness: at the concrete state whose queue already holds
the (0, 0, BACKWARD) job, a new gradient arrival appends exactly one
more job. -/
theorem claim_C2_witness :
    _create_backward_job_and_put_to_pending_queue 2 c2_metadata c2_state =
      Except.ok
        { c2_state with pending_jobs :=
            c2_state.pending_jobs ++ [Job.backward (bridgeJob 2 c2_metadata c2_state)] } :=
  claim_C2_amended_always_enqueues 2 c2_metadata c2_state (by decide) (by decide)

/-- Claim C3: when a gradient arrives at the Bridge on the reverse pass,
the Bridge wraps the gradient together with the metadata captured on
the forward pass into a Package whose job_type is BACKWARD, builds a
Backward Job from that Package through the Job Creator (create_job),
and appends that very job to the pending Job Queue. -/
theorem claim_C3_bridge_builds_and_enqueues (ctx : BridgeCtx) (grad_input : Tensor)
    (st : GlobalState)
    (hs : SavedActivation.is_saved ctx.package_meta.microbatch_idx
        ctx.package_meta.partition_idx st.saved_activations = true)
    (hi : InputActivations.is_saved ctx.package_meta.microbatch_idx
        ctx.package_meta.partition_idx st.input_activations = true) :
    (bridgeJob grad_input ctx.package_meta st).package =
      { data := grad_input,
        metadata := { ctx.package_meta with job_type := JobType.BACKWARD } } ∧
    create_job Callable.backward_function
        (PyObject.package
          { data := grad_input,
            metadata := { ctx.package_meta with job_type := JobType.BACKWARD } })
        st.pipeline_context.parallel_context (PyObject.pipeline_context st.pipeline_context)
        st.saved_activations st.input_activations =
      Except.ok (Job.backward (bridgeJob grad_input ctx.package_meta st)) ∧
    Function.backward ctx grad_input st =
      Except.ok ((none, grad_input),
        { st with pending_jobs :=
            st.pending_jobs ++ [Job.backward (bridgeJob grad_input ctx.package_meta st)] }) :=
  ⟨rfl, bridge_create_job_ok grad_input ctx.package_meta st hs hi,
    bridge_backward_ok ctx grad_input st hs hi⟩

/-- Claim C3 witness: at the concrete state with both (0, 0) activation
entries present, the bridge backward pass enqueues the backward job it
built from the captured metadata. -/
theorem claim_C3_witness :
    Function.backward ⟨c2_metadata⟩ 6 c2_state =
      Except.ok ((none, 6),
        { c2_state with pending_jobs :=
            c2_state.pending_jobs ++ [Job.backward (bridgeJob 6 c2_metadata c2_state)] }) :=
  (claim_C3_bridge_builds_and_enqueues ⟨c2_metadata⟩ 6 c2_state (by decide) (by decide)).2.2

/-- Claim C6 counterexample: the Backward Job built by the backward
creator for the concrete package c6_package carries exactly one
callback, the prepare-output callback, and none of its callbacks
transmits a Package: the SendBackwardPackageCallback line is commented
out in the source, so executing this job cannot transmit the gradient
Package to the previous stage. -/
theorem claim_C6_counterexample :
    _BackwardJobCreator.create (Callable.user 0) c6_package c6_pc c6_ctx
        [((0, 1), 11)] [((0, 1), 13)] = Except.ok c6_job ∧
    c6_job.cbs = [Callback.CreateBackwardOutputPackageCallback c6_pc c6_ctx] ∧
    c6_job.cbs.any Callback.transmitsPackage = false :=
  ⟨rfl, rfl, rfl⟩

/-- Claim C6 as amended: executing a Backward Job built by the Job
Creator prepares the outgoing gradient Package for the previous stage
(its callback list is exactly the prepare-output callback), but the job
does not itself transmit the gradient Package: no transmitting callback
is installed, the send callback being commented out in the source. -/
theorem claim_C6_amended_prepare_only (function : Callable) (pkg : Package)
    (parallel_context : ParallelContext) (ctx : PipelineContext)
    (saved_store input_store : Store) (bj : BackwardJob)
    (h : _BackwardJobCreator.create function pkg parallel_context ctx saved_store input_store =
      Except.ok bj) :
    bj.cbs = [Callback.CreateBackwardOutputPackageCallback parallel_context ctx] ∧
    bj.cbs.any Callback.transmitsPackage = false := by
  simp only [_BackwardJobCreator.create] at h
  split_ifs at h
  cases h
  exact ⟨rfl, rfl⟩

/-- Claim C6 witness: the concrete backward job for (0, 1) has the
prepare-output callback as its only callback and no transmitting
callback. -/
theorem claim_C6_witness :
    c6_job.cbs = [Callback.CreateBackwardOutputPackageCallback c6_pc c6_ctx] ∧
    c6_job.cbs.any Callback.transmitsPackage = false :=
  claim_C6_amended_prepare_only (Callable.user 0) c6_package c6_pc c6_ctx
    [((0, 1), 11)] [((0, 1), 13)] c6_job rfl

/-- Claim C10: schedule_backward_job returns the package it was given
with only the data field replaced by the output of the bridge node
applied to the old data; the metadata field is unchanged. -/
theorem claim_C10_frame (package : Package) (pipeline_context : PipelineContext) :
    (schedule_backward_job package pipeline_context).1 =
      { data := (Function.forward package.metadata package.data).output,
        metadata := package.metadata } ∧
    (schedule_backward_job package pipeline_context).1.metadata = package.metadata := by
  exact ⟨rfl, rfl⟩

end Pipegoose
